import Mathlib

/-!
# Shallow embedding of `src/pages/index.js`

The page is a single React component tree.  The root component `Portfolio`
owns three `useState` cells; every other component is a pure function of its
props and of literal data.  The embedding keeps

* the state cells and their setters (`State`, `Action`, `applyAction`),
* the two mount effects (the loading timer and the `mousemove` listener),
* the render functions as functions from props to a small tree of nodes, with
  the `onClick` closures represented by the setter call they perform,
* event delivery as a step function: an event runs the handler that the
  current render (or the mount effects) attached for it.

Animation properties (`initial`, `animate`, `transition` of `motion.*`) are
not part of the embedding, with the exception of the skill bar target width.
The wrapper `<AnimatePresence mode="wait">` around the section views is kept
at the level of which views it holds in the DOM: the end of an exit animation
is an event of its own (`PageEvent.exitComplete`).
-/

namespace PortfolioPage

/-! ## JavaScript values that reach the state cells -/

/-- A primitive JavaScript value.  Numeric pointer coordinates are carried as
integers; the code stores them without inspecting them. -/
inductive JsVal where
  | undefined
  | null
  | num (n : Int)
  | str (s : String)
  | bool (b : Bool)
  deriving DecidableEq, Repr

/-- An object seen as its list of own properties. -/
abbrev JsObject := List (String × JsVal)

/-- Property read `o.k` on an object: a missing property reads as
`undefined`. -/
def getProp (o : JsObject) (k : String) : JsVal :=
  match o.lookup k with
  | some v => v
  | none => JsVal.undefined

/-- What a handler may receive as its argument. -/
inductive JsArg where
  | undefined
  | null
  | object (props : JsObject)
  deriving DecidableEq, Repr

/-- Errors a handler can raise. -/
inductive JsError where
  | typeError
  deriving DecidableEq, Repr

/-- Property read `e.k` on a handler argument: reading a property of
`undefined` or `null` throws a `TypeError`. -/
def readProp : JsArg → String → Except JsError JsVal
  | JsArg.undefined, _ => Except.error JsError.typeError
  | JsArg.null, _ => Except.error JsError.typeError
  | JsArg.object props, k => Except.ok (getProp props k)

/-! ## State of `Portfolio` (index.js lines 6-8) -/

/-- The object held by the `cursorPosition` cell. -/
structure CursorPosition where
  x : JsVal
  y : JsVal
  deriving DecidableEq, Repr

/-- The three `useState` cells of `Portfolio`. -/
structure State where
  activeSection : String
  cursorPosition : CursorPosition
  isLoading : Bool
  deriving DecidableEq, Repr

/-- The initial values passed to `useState` (lines 6-8). -/
def initialState : State :=
  { activeSection := "hero"
    cursorPosition := { x := JsVal.num 0, y := JsVal.num 0 }
    isLoading := true }

/-- A call of one of the three state setters. -/
inductive Action where
  | setActiveSection (id : String)
  | setCursorPosition (p : CursorPosition)
  | setIsLoading (b : Bool)
  deriving DecidableEq, Repr

/-- Effect of a setter call on the state cells. -/
def applyAction (s : State) : Action → State
  | Action.setActiveSection id => { s with activeSection := id }
  | Action.setCursorPosition p => { s with cursorPosition := p }
  | Action.setIsLoading b => { s with isLoading := b }

/-! ## Mount effects (lines 10-22) -/

/-- A pending `setTimeout`: the setter call its callback performs and the
delay in milliseconds. -/
structure Timeout where
  callback : Action
  delay : Nat
  deriving DecidableEq, Repr

/-- The timer of line 11: `setTimeout(() => setIsLoading(false), 2500)`. -/
def timer : Timeout :=
  { callback := Action.setIsLoading false, delay := 2500 }

/-- The listener of lines 16-18:
`(e) => setCursorPosition({ x: e.clientX, y: e.clientY })`. -/
def handleMouseMove (e : JsArg) : Except JsError Action := do
  let x ← readProp e "clientX"
  let y ← readProp e "clientY"
  pure (Action.setCursorPosition { x := x, y := y })

/-! ## Components -/

/-- An entry of `navItems`. -/
structure NavItem where
  id : String
  label : String
  deriving DecidableEq, Repr

/-- The literal `navItems` of `Navigation` (lines 104-109). -/
def navItems : List NavItem :=
  [ { id := "hero", label := "Home" },
    { id := "about", label := "About" },
    { id := "projects", label := "Projects" },
    { id := "contact", label := "Contact" } ]

/-- A rendered `<li key><button onClick className>` of `Navigation`. -/
structure NavButton where
  key : String
  onClick : Action
  className : String
  label : String
  indicator : Bool
  deriving DecidableEq, Repr

/-- The component `Navigation` (lines 103-133): one button per entry of
`navItems`, whose `onClick` is `() => setActiveSection(item.id)`. -/
def Navigation (activeSection : String) : List NavButton :=
  navItems.map fun item =>
    { key := item.id
      onClick := Action.setActiveSection item.id
      className := if activeSection = item.id then "active" else ""
      label := item.label
      indicator := decide (activeSection = item.id) }

/-- The four section components that `Portfolio` can mount. -/
inductive SectionView where
  | HeroSection
  | AboutSection
  | ProjectsSection
  | ContactSection
  deriving DecidableEq, Repr

/-- What `Portfolio` returns: either the loading screen alone (line 25) or
the page (lines 28-51) with the cursor overlay, the navigation bar and the
children of `AnimatePresence`. -/
inductive Rendered where
  | LoadingScreen
  | page (cursor : CursorPosition) (nav : List NavButton)
      (main : List SectionView)
  deriving DecidableEq, Repr

/-- The JSX idiom `{cond && <View />}`: the element when the condition
holds, nothing otherwise. -/
def mountIf (cond : Bool) (v : SectionView) : List SectionView :=
  if cond then [v] else []

/-- The render function of `Portfolio` (lines 24-51). -/
def Portfolio (s : State) : Rendered :=
  if s.isLoading then Rendered.LoadingScreen
  else
    Rendered.page s.cursorPosition (Navigation s.activeSection)
      (mountIf (decide (s.activeSection = "hero")) SectionView.HeroSection ++
       mountIf (decide (s.activeSection = "about")) SectionView.AboutSection ++
       mountIf (decide (s.activeSection = "projects")) SectionView.ProjectsSection ++
       mountIf (decide (s.activeSection = "contact")) SectionView.ContactSection)

/-- The section views a render selects for mounting: the children that
`Portfolio` hands to `AnimatePresence` (lines 43-46).  Which views the wrapper
holds in the DOM is `Page.shown`. -/
def mountedSections : Rendered → List SectionView
  | Rendered.LoadingScreen => []
  | Rendered.page _ _ main => main

/-- The navigation buttons present in a render. -/
def navButtons : Rendered → List NavButton
  | Rendered.LoadingScreen => []
  | Rendered.page _ nav _ => nav

/-- Whether the render is the loading screen. -/
def showsLoadingScreen : Rendered → Bool
  | Rendered.LoadingScreen => true
  | Rendered.page _ _ _ => false

/-! ## Literal data of the section components -/

/-- An entry of `skills`. -/
structure Skill where
  name : String
  level : Int
  deriving DecidableEq, Repr

/-- The literal `skills` of `AboutSection` (lines 226-233). -/
def skills : List Skill :=
  [ { name := "Next.js", level := 90 },
    { name := "React", level := 95 },
    { name := "Animation", level := 85 },
    { name := "UI/UX Design", level := 80 },
    { name := "Three.js", level := 75 },
    { name := "Node.js", level := 85 } ]

/-- A rendered `skill-item` (lines 274-293): its key, the two spans of the
header and the `animate.width` of the progress bar. -/
structure SkillItem where
  key : String
  nameText : String
  levelText : String
  progressWidth : String
  deriving DecidableEq, Repr

/-- The skills grid of `AboutSection` (lines 273-294): `skills.map` with the
text `{skill.level}%` and the template string of the bar width. -/
def AboutSection : List SkillItem :=
  skills.map fun skill =>
    { key := skill.name
      nameText := skill.name
      levelText := toString skill.level ++ "%"
      progressWidth := toString skill.level ++ "%" }

/-- An entry of `projects`. -/
structure Project where
  id : Nat
  title : String
  description : String
  tags : List String
  deriving DecidableEq, Repr

/-- The literal `projects` of `ProjectsSection` (lines 303-328). -/
def projects : List Project :=
  [ { id := 1
      title := "3D E-Commerce Experience"
      description := "An immersive shopping experience with WebGL and Three.js"
      tags := ["Next.js", "Three.js", "Framer Motion"] },
    { id := 2
      title := "AI Portfolio Generator"
      description := "AI-powered tool that creates personalized portfolios"
      tags := ["React", "AI", "Node.js"] },
    { id := 3
      title := "Interactive Data Visualization"
      description := "Real-time data dashboard with animated charts"
      tags := ["D3.js", "WebSockets", "SVG"] },
    { id := 4
      title := "AR Product Preview"
      description := "Web-based AR for product visualization"
      tags := ["WebXR", "Three.js", "AR"] } ]

/-- A rendered `<span key={tag} className="tag">{tag}</span>`. -/
structure TagSpan where
  key : String
  text : String
  deriving DecidableEq, Repr

/-- A rendered `project-card` (lines 342-364). -/
structure ProjectCard where
  key : Nat
  title : String
  description : String
  tagSpans : List TagSpan
  deriving DecidableEq, Repr

/-- The projects grid of `ProjectsSection` (lines 341-365): `projects.map`,
with `project.tags.map` for the tag spans. -/
def ProjectsSection : List ProjectCard :=
  projects.map fun project =>
    { key := project.id
      title := project.title
      description := project.description
      tagSpans := project.tags.map fun tag => { key := tag, text := tag } }

/-! ## Events -/

/-- The external events of the page. -/
inductive Event where
  /-- A click on the navigation button whose key is `key`. -/
  | click (key : String)
  /-- A `mousemove` event on `window` with payload object `e`. -/
  | mousemove (e : JsObject)
  /-- The loading timer fires. -/
  | timerFired
  deriving DecidableEq, Repr

/-- Delivery of one event.  A click runs the `onClick` of the button with
that key in the current render, and does nothing when the render has no such
button; a pointer move runs `handleMouseMove`, and a throwing handler leaves
the cells as they are; the timer runs its callback. -/
def step (s : State) : Event → State
  | Event.click key =>
    match (navButtons (Portfolio s)).find? (fun b => b.key == key) with
    | some b => applyAction s b.onClick
    | none => s
  | Event.mousemove e =>
    match handleMouseMove (JsArg.object e) with
    | Except.ok a => applyAction s a
    | Except.error _ => s
  | Event.timerFired => applyAction s timer.callback

/-- Delivery of a sequence of events, in arrival order. -/
def run (s : State) (evs : List Event) : State :=
  evs.foldl step s

/-- The payloads of the pointer-move events of a sequence, in order. -/
def pointerMoves : List Event → List JsObject
  | [] => []
  | Event.mousemove e :: evs => e :: pointerMoves evs
  | _ :: evs => pointerMoves evs

/-- The pointer position that `handleMouseMove` builds from a payload. -/
def positionOf (e : JsObject) : CursorPosition :=
  { x := getProp e "clientX", y := getProp e "clientY" }

/-- The four identifiers named by the specification. -/
def knownSections : List String := ["hero", "about", "projects", "contact"]

/-- Whether a value is a number (`typeof v === 'number'`). -/
def isNumber : JsVal → Bool
  | JsVal.num _ => true
  | _ => false

/-- A malformed pointer payload in the words of the specification: `clientX`
or `clientY` is missing or is not a number. -/
def malformed (e : JsObject) : Prop :=
  isNumber (getProp e "clientX") = false ∨ isNumber (getProp e "clientY") = false

/-! ## The section views in the DOM (line 42) -/

/-- The library component `AnimatePresence` with `mode="wait"` (line 42), as
a function from the views it holds in the DOM and the children of the new
render to the views it holds after that render.  With nothing in the DOM the
children enter at once.  Otherwise the view in the DOM stays: either it is
still the child, or it is no longer the child and plays its `exit` animation
(0.5 s, lines 141-142, 240-241, 335-336, 377-378) while the new child waits
for that exit to end. -/
def AnimatePresence (shown children : List SectionView) : List SectionView :=
  if shown = [] then children else shown

/-- The page: the state cells of `Portfolio` and the section views that the
wrapper holds in the DOM. -/
structure Page where
  state : State
  shown : List SectionView
  deriving DecidableEq, Repr

/-- The page at mount: the loading screen, no section view. -/
def initialPage : Page :=
  { state := initialState
    shown := AnimatePresence [] (mountedSections (Portfolio initialState)) }

/-- The events of the page: the external events, and the end of the exit
animation of the section view in the DOM. -/
inductive PageEvent where
  | event (e : Event)
  | exitComplete
  deriving DecidableEq, Repr

/-- Delivery of one page event.  An external event updates the state cells,
and the wrapper sees the children of the new render.  When an exit animation
ends the wrapper removes the exited view and mounts the children of the
current render. -/
def pageStep (p : Page) : PageEvent → Page
  | PageEvent.event e =>
    { state := step p.state e
      shown := AnimatePresence p.shown (mountedSections (Portfolio (step p.state e))) }
  | PageEvent.exitComplete =>
    { state := p.state
      shown := mountedSections (Portfolio p.state) }

/-- Delivery of a sequence of page events, in arrival order. -/
def runPage (p : Page) (evs : List PageEvent) : Page :=
  evs.foldl pageStep p

/-! ## One-step lemmas -/

theorem step_mousemove (s : State) (e : JsObject) :
    step s (Event.mousemove e) = { s with cursorPosition := positionOf e } := by
  rfl

theorem step_timerFired (s : State) :
    step s Event.timerFired = { s with isLoading := false } := by
  rfl

theorem navButtons_loading (s : State) (h : s.isLoading = true) :
    navButtons (Portfolio s) = [] := by
  simp [Portfolio, h, navButtons]

theorem navButtons_ready (s : State) (h : s.isLoading = false) :
    navButtons (Portfolio s) = Navigation s.activeSection := by
  simp [Portfolio, h, navButtons]

theorem step_click_loading (s : State) (key : String) (h : s.isLoading = true) :
    step s (Event.click key) = s := by
  simp [step, navButtons_loading s h]

theorem find_navigation (a key : String) :
    (Navigation a).find? (fun b => b.key == key) =
      if key = "hero" ∨ key = "about" ∨ key = "projects" ∨ key = "contact" then
        some { key := key, onClick := Action.setActiveSection key,
               className := if a = key then "active" else "",
               label := (if key = "hero" then "Home" else if key = "about" then "About"
                 else if key = "projects" then "Projects" else "Contact"),
               indicator := decide (a = key) }
      else none := by
  by_cases h1 : key = "hero"
  · subst h1; simp [Navigation, navItems, List.find?]
  by_cases h2 : key = "about"
  · subst h2; simp [Navigation, navItems, List.find?]
  by_cases h3 : key = "projects"
  · subst h3; simp [Navigation, navItems, List.find?]
  by_cases h4 : key = "contact"
  · subst h4; simp [Navigation, navItems, List.find?]
  have e1 : ("hero" == key) = false := by simpa using fun h => h1 h.symm
  have e2 : ("about" == key) = false := by simpa using fun h => h2 h.symm
  have e3 : ("projects" == key) = false := by simpa using fun h => h3 h.symm
  have e4 : ("contact" == key) = false := by simpa using fun h => h4 h.symm
  simp [Navigation, navItems, List.find?, h1, h2, h3, h4, e1, e2, e3, e4]

theorem step_click_ready (s : State) (key : String) (h : s.isLoading = false) :
    step s (Event.click key) =
      if key = "hero" ∨ key = "about" ∨ key = "projects" ∨ key = "contact" then
        { s with activeSection := key }
      else s := by
  unfold step
  simp only [navButtons_ready s h]
  rw [find_navigation]
  split_ifs <;> rfl

theorem step_click_cases (s : State) (key : String) :
    step s (Event.click key) = s ∨
      (s.isLoading = false ∧ key ∈ knownSections ∧
        step s (Event.click key) = { s with activeSection := key }) := by
  by_cases h : s.isLoading = true
  · exact Or.inl (step_click_loading s key h)
  · have hf : s.isLoading = false := by simpa using h
    rw [step_click_ready s key hf]
    by_cases hk : key = "hero" ∨ key = "about" ∨ key = "projects" ∨ key = "contact"
    · right
      refine ⟨hf, ?_, by simp [hk]⟩
      simpa [knownSections] using hk
    · left; simp [hk]

theorem step_isLoading (s : State) (e : Event) :
    (step s e).isLoading = (s.isLoading && decide (e ≠ Event.timerFired)) := by
  cases e with
  | click key =>
    rcases step_click_cases s key with h | ⟨_, _, h⟩ <;> simp [h]
  | mousemove p => simp [step_mousemove]
  | timerFired => simp [step_timerFired]

theorem step_activeSection_loading (s : State) (e : Event) (h : s.isLoading = true) :
    (step s e).activeSection = s.activeSection := by
  cases e with
  | click key => rw [step_click_loading s key h]
  | mousemove p => rfl
  | timerFired => rfl

theorem step_activeSection_known (s : State) (e : Event)
    (h : s.activeSection ∈ knownSections) :
    (step s e).activeSection ∈ knownSections := by
  cases e with
  | click key =>
    rcases step_click_cases s key with h1 | ⟨_, hk, h1⟩
    · rw [h1]; exact h
    · rw [h1]; exact hk
  | mousemove p => exact h
  | timerFired => exact h

/-! ## Runs -/

theorem run_cons (s : State) (e : Event) (evs : List Event) :
    run s (e :: evs) = run (step s e) evs := rfl

theorem run_append (s : State) (xs ys : List Event) :
    run s (xs ++ ys) = run (run s xs) ys := by
  simp [run, List.foldl_append]

theorem run_concat (s : State) (xs : List Event) (e : Event) :
    run s (xs ++ [e]) = step (run s xs) e := by
  simp [run, List.foldl_append]

theorem run_isLoading_false (s : State) (evs : List Event) (h : s.isLoading = false) :
    (run s evs).isLoading = false := by
  induction evs generalizing s with
  | nil => exact h
  | cons e evs ih =>
    rw [run_cons]
    apply ih
    rw [step_isLoading, h]; rfl

theorem run_activeSection_known (s : State) (evs : List Event)
    (h : s.activeSection ∈ knownSections) :
    (run s evs).activeSection ∈ knownSections := by
  induction evs generalizing s with
  | nil => exact h
  | cons e evs ih =>
    rw [run_cons]
    exact ih _ (step_activeSection_known s e h)

theorem run_before_timer (evs : List Event) (h : Event.timerFired ∉ evs) :
    (run initialState evs).isLoading = true ∧
      (run initialState evs).activeSection = "hero" := by
  induction evs using List.reverseRecOn with
  | nil => exact ⟨rfl, rfl⟩
  | append_singleton xs e ih =>
    have hxs : Event.timerFired ∉ xs := fun hm => h (List.mem_append_left _ hm)
    have he : e ≠ Event.timerFired := fun hm => h (by simp [hm])
    obtain ⟨h1, h2⟩ := ih hxs
    rw [run_concat]
    refine ⟨?_, ?_⟩
    · rw [step_isLoading, h1]; simp [he]
    · rw [step_activeSection_loading _ _ h1]; exact h2

theorem pointerMoves_append (xs ys : List Event) :
    pointerMoves (xs ++ ys) = pointerMoves xs ++ pointerMoves ys := by
  induction xs with
  | nil => rfl
  | cons e xs ih =>
    cases e <;> simp [pointerMoves, ih]

theorem run_cursorPosition (s : State) (evs : List Event) :
    (run s evs).cursorPosition =
      match (pointerMoves evs).getLast? with
      | some p => positionOf p
      | none => s.cursorPosition := by
  induction evs using List.reverseRecOn with
  | nil => rfl
  | append_singleton xs e ih =>
    rw [run_concat, pointerMoves_append]
    cases e with
    | click key =>
      have hc : (step (run s xs) (Event.click key)).cursorPosition =
          (run s xs).cursorPosition := by
        rcases step_click_cases (run s xs) key with h | ⟨_, _, h⟩ <;> rw [h]
      rw [hc, ih]; simp [pointerMoves]
    | mousemove p =>
      rw [step_mousemove]; simp [pointerMoves]
    | timerFired =>
      rw [step_timerFired]; simp only [pointerMoves, List.append_nil]; exact ih

theorem mounted_ready (s : State) (h : s.isLoading = false) :
    mountedSections (Portfolio s) =
      mountIf (decide (s.activeSection = "hero")) SectionView.HeroSection ++
      mountIf (decide (s.activeSection = "about")) SectionView.AboutSection ++
      mountIf (decide (s.activeSection = "projects")) SectionView.ProjectsSection ++
      mountIf (decide (s.activeSection = "contact")) SectionView.ContactSection := by
  simp [Portfolio, h, mountedSections]

theorem mounted_length_le_one (s : State) :
    (mountedSections (Portfolio s)).length ≤ 1 := by
  cases h : s.isLoading with
  | true => simp [Portfolio, h, mountedSections]
  | false =>
    rw [mounted_ready s h]
    by_cases h1 : s.activeSection = "hero"
    · simp [h1, mountIf]
    by_cases h2 : s.activeSection = "about"
    · simp [h2, mountIf]
    by_cases h3 : s.activeSection = "projects"
    · simp [h3, mountIf]
    by_cases h4 : s.activeSection = "contact"
    · simp [h4, mountIf]
    simp [h1, h2, h3, h4, mountIf]

/-! ## Navigation and mounting -/

/-- C1, as stated, fails: from the first Ready page, which shows
`HeroSection`, a click on "about" sets `activeSection` to "about" while the
DOM still holds `HeroSection` and not `AboutSection`; and when a click on
"projects" follows before the exit ends, `AboutSection` is not mounted after
the exit either. -/
theorem click_leaves_previous_section_mounted :
    (runPage initialPage [PageEvent.event Event.timerFired]).state.isLoading = false ∧
    (runPage initialPage [PageEvent.event Event.timerFired]).shown
      = [SectionView.HeroSection] ∧
    (runPage initialPage [PageEvent.event Event.timerFired,
      PageEvent.event (Event.click "about")]).state.activeSection = "about" ∧
    (runPage initialPage [PageEvent.event Event.timerFired,
      PageEvent.event (Event.click "about")]).shown = [SectionView.HeroSection] ∧
    (runPage initialPage [PageEvent.event Event.timerFired,
      PageEvent.event (Event.click "about")]).shown ≠ [SectionView.AboutSection] ∧
    (runPage initialPage [PageEvent.event Event.timerFired,
      PageEvent.event (Event.click "about"),
      PageEvent.event (Event.click "projects")]).shown = [SectionView.HeroSection] ∧
    (runPage initialPage [PageEvent.event Event.timerFired,
      PageEvent.event (Event.click "about"),
      PageEvent.event (Event.click "projects"),
      PageEvent.exitComplete]).shown = [SectionView.ProjectsSection] := by
  decide

/-- C1, amended: the navigation identifiers are the four known ones, and in
every Ready page, for each of them, the render holds the button for `X`,
clicking it sets `activeSection` to `X`, and the next render hands
`AnimatePresence` exactly one section view, the one that corresponds to `X`.
That view is in the DOM right after the click when no section view or that
same view was in the DOM; otherwise the view in the DOM stays, and the view
for `X` is the one in the DOM once the exit has ended with no other event in
between. -/
theorem click_selects_exactly_that_section (p : Page) (X : String)
    (hX : X ∈ ["hero", "about", "projects", "contact"])
    (hready : p.state.isLoading = false) :
    navItems.map (fun item => item.id) = ["hero", "about", "projects", "contact"] ∧
    (∃ b, (navButtons (Portfolio p.state)).find? (fun b => b.key == X) = some b ∧
      b.onClick = Action.setActiveSection X) ∧
    (step p.state (Event.click X)).activeSection = X ∧
    (pageStep p (PageEvent.event (Event.click X))).state.activeSection = X ∧
    ∃ v, mountedSections (Portfolio (step p.state (Event.click X))) = [v] ∧
      ((X = "hero" ∧ v = SectionView.HeroSection) ∨
       (X = "about" ∧ v = SectionView.AboutSection) ∨
       (X = "projects" ∧ v = SectionView.ProjectsSection) ∨
       (X = "contact" ∧ v = SectionView.ContactSection)) ∧
      (p.shown = [] ∨ p.shown = [v] →
        (pageStep p (PageEvent.event (Event.click X))).shown = [v]) ∧
      (p.shown ≠ [] →
        (pageStep p (PageEvent.event (Event.click X))).shown = p.shown) ∧
      (pageStep (pageStep p (PageEvent.event (Event.click X)))
        PageEvent.exitComplete).shown = [v] := by
  have hk : X = "hero" ∨ X = "about" ∨ X = "projects" ∨ X = "contact" := by
    simpa using hX
  have hstep : step p.state (Event.click X) = { p.state with activeSection := X } := by
    rw [step_click_ready p.state X hready]; simp [hk]
  have hact : (step p.state (Event.click X)).activeSection = X := by rw [hstep]
  have hr : (step p.state (Event.click X)).isLoading = false := by
    rw [hstep]; exact hready
  have hsel : ∃ v, mountedSections (Portfolio (step p.state (Event.click X))) = [v] ∧
      ((X = "hero" ∧ v = SectionView.HeroSection) ∨
       (X = "about" ∧ v = SectionView.AboutSection) ∨
       (X = "projects" ∧ v = SectionView.ProjectsSection) ∨
       (X = "contact" ∧ v = SectionView.ContactSection)) := by
    rw [mounted_ready _ hr, hact]
    rcases hk with h | h | h | h <;> subst h
    · exact ⟨SectionView.HeroSection, by simp [mountIf], by simp⟩
    · exact ⟨SectionView.AboutSection, by simp [mountIf], by simp⟩
    · exact ⟨SectionView.ProjectsSection, by simp [mountIf], by simp⟩
    · exact ⟨SectionView.ContactSection, by simp [mountIf], by simp⟩
  refine ⟨rfl, ?_, hact, hact, ?_⟩
  · rw [navButtons_ready p.state hready, find_navigation]
    simp [hk]
  · obtain ⟨v, hv, hcorr⟩ := hsel
    refine ⟨v, hv, hcorr, ?_, ?_, ?_⟩
    · intro hs
      show AnimatePresence p.shown
        (mountedSections (Portfolio (step p.state (Event.click X)))) = [v]
      rw [hv]
      rcases hs with hs | hs <;> simp [AnimatePresence, hs]
    · intro hs
      show AnimatePresence p.shown
        (mountedSections (Portfolio (step p.state (Event.click X)))) = p.shown
      simp [AnimatePresence, hs]
    · exact hv

theorem click_selects_exactly_that_section_witness :
    (pageStep (runPage initialPage [PageEvent.event Event.timerFired])
      (PageEvent.event (Event.click "about"))).shown
        = (runPage initialPage [PageEvent.event Event.timerFired]).shown ∧
    (pageStep (pageStep (runPage initialPage [PageEvent.event Event.timerFired])
      (PageEvent.event (Event.click "about"))) PageEvent.exitComplete).shown
        = [SectionView.AboutSection] := by
  obtain ⟨_, _, _, _, v, hv, _, _, hstay, hafter⟩ :=
    click_selects_exactly_that_section
      (runPage initialPage [PageEvent.event Event.timerFired]) "about"
      (by decide) (by decide)
  have hv2 : v = SectionView.AboutSection := by
    have h : mountedSections (Portfolio (step
        (runPage initialPage [PageEvent.event Event.timerFired]).state
        (Event.click "about"))) = [SectionView.AboutSection] := by decide
    rw [h] at hv
    exact (List.cons.inj hv).1.symm
  exact ⟨hstay (by decide), by rw [hafter, hv2]⟩

/-- C2: in every state reached from the initial state by a finite sequence of
navigation clicks, pointer moves and timer events, `activeSection` is one of
"hero", "about", "projects", "contact". -/
theorem activeSection_always_known (evs : List Event) :
    (run initialState evs).activeSection ∈ ["hero", "about", "projects", "contact"] :=
  run_activeSection_known initialState evs (by decide)

/-- C3: the loading flag is true initially and the initial render is the
loading screen alone; the timer is scheduled with delay 2500 and its callback
sets the flag to false; no event turns a false flag back to true; and in
every state reached after the timer has fired the loading screen is not
rendered. -/
theorem loading_flag_two_state (s : State) (e : Event) (evs : List Event) :
    initialState.isLoading = true ∧
    Portfolio initialState = Rendered.LoadingScreen ∧
    timer = { callback := Action.setIsLoading false, delay := 2500 } ∧
    (step s Event.timerFired).isLoading = false ∧
    (s.isLoading = false → (step s e).isLoading = false) ∧
    (run (step s Event.timerFired) evs).isLoading = false ∧
    showsLoadingScreen (Portfolio (run (step s Event.timerFired) evs)) = false ∧
    (Event.timerFired ∈ evs →
      (run initialState evs).isLoading = false ∧
      showsLoadingScreen (Portfolio (run initialState evs)) = false) := by
  have hshow : ∀ t : State, t.isLoading = false →
      showsLoadingScreen (Portfolio t) = false := by
    intro t ht; simp [Portfolio, ht, showsLoadingScreen]
  have hafter : ∀ t : State, (run (step t Event.timerFired) evs).isLoading = false :=
    fun t => run_isLoading_false _ evs rfl
  refine ⟨rfl, rfl, rfl, rfl, ?_, hafter s, hshow _ (hafter s), ?_⟩
  · intro h; rw [step_isLoading, h]; rfl
  · intro hmem
    obtain ⟨pre, post, rfl⟩ := List.append_of_mem hmem
    have h : (run initialState (pre ++ Event.timerFired :: post)).isLoading = false := by
      rw [run_append, run_cons]
      exact run_isLoading_false _ post rfl
    exact ⟨h, hshow _ h⟩

theorem loading_flag_two_state_witness :
    (step (step initialState Event.timerFired) (Event.click "contact")).isLoading = false ∧
    showsLoadingScreen (Portfolio (run initialState
      [Event.mousemove [], Event.timerFired, Event.click "about", Event.timerFired]))
        = false :=
  ⟨(loading_flag_two_state (step initialState Event.timerFired) (Event.click "contact")
      [Event.mousemove [], Event.timerFired, Event.click "about",
        Event.timerFired]).2.2.2.2.1 (by decide),
   ((loading_flag_two_state (step initialState Event.timerFired) (Event.click "contact")
      [Event.mousemove [], Event.timerFired, Event.click "about",
        Event.timerFired]).2.2.2.2.2.2.2 (by decide)).2⟩

/-! ## Pointer position -/

/-- C4: for every `N ≥ 1`, every starting state and every sequence of events
with exactly `N` pointer moves, interleaved in any way with clicks and timer
events, the stored `cursorPosition` after the sequence is
`(clientX, clientY)` of the `N`-th pointer move. -/
theorem cursor_is_last_pointer_move (s : State) (evs : List Event) (N : Nat)
    (hN : 1 ≤ N) (hlen : (pointerMoves evs).length = N) :
    ∃ p, (pointerMoves evs)[N - 1]? = some p ∧
      (run s evs).cursorPosition =
        { x := getProp p "clientX", y := getProp p "clientY" } := by
  have hlt : N - 1 < (pointerMoves evs).length := by omega
  refine ⟨(pointerMoves evs)[N - 1], List.getElem?_eq_getElem hlt, ?_⟩
  have hlast : (pointerMoves evs).getLast? = some (pointerMoves evs)[N - 1] := by
    rw [List.getLast?_eq_getElem?, hlen]; exact List.getElem?_eq_getElem hlt
  rw [run_cursorPosition, hlast]
  rfl

theorem cursor_is_last_pointer_move_witness :
    ∃ p, (pointerMoves
      [Event.mousemove [("clientX", JsVal.num 10), ("clientY", JsVal.num 20)],
       Event.timerFired, Event.click "projects",
       Event.mousemove [("clientX", JsVal.num 7), ("clientY", JsVal.num 9)]])[2 - 1]?
        = some p ∧
      (run initialState
        [Event.mousemove [("clientX", JsVal.num 10), ("clientY", JsVal.num 20)],
         Event.timerFired, Event.click "projects",
         Event.mousemove [("clientX", JsVal.num 7), ("clientY", JsVal.num 9)]]).cursorPosition
        = { x := getProp p "clientX", y := getProp p "clientY" } :=
  cursor_is_last_pointer_move initialState
    [Event.mousemove [("clientX", JsVal.num 10), ("clientY", JsVal.num 20)],
     Event.timerFired, Event.click "projects",
     Event.mousemove [("clientX", JsVal.num 7), ("clientY", JsVal.num 9)]]
    2 (by decide) (by decide)

/-- C5, as stated, fails: for the payload `{ clientY: 5 }`, whose `clientX`
is missing, the handler returns normally and handling the event from the
initial state replaces the stored position `(0, 0)` by `(undefined, 5)`. -/
theorem malformed_payload_overwrites_position :
    malformed [("clientY", JsVal.num 5)] ∧
    handleMouseMove (JsArg.object [("clientY", JsVal.num 5)]) =
      Except.ok (Action.setCursorPosition { x := JsVal.undefined, y := JsVal.num 5 }) ∧
    initialState.cursorPosition = { x := JsVal.num 0, y := JsVal.num 0 } ∧
    (step initialState (Event.mousemove [("clientY", JsVal.num 5)])).cursorPosition =
      { x := JsVal.undefined, y := JsVal.num 5 } ∧
    ¬ (∀ (s : State) (e : JsObject), malformed e →
        (step s (Event.mousemove e)).cursorPosition = s.cursorPosition) := by
  refine ⟨Or.inl rfl, rfl, rfl, rfl, ?_⟩
  intro h
  have h1 := h initialState [("clientY", JsVal.num 5)] (Or.inl rfl)
  revert h1
  decide

/-- C5, amended: for every state and every pointer-move payload object,
malformed or not, the handler raises no error and the stored position becomes
`{ x: e.clientX, y: e.clientY }` as read from the payload, a missing field
reading as `undefined`; the prior position is kept exactly when both values
read equal the prior coordinates. -/
theorem pointer_payload_stored_as_read (s : State) (e : JsObject) :
    handleMouseMove (JsArg.object e) =
      Except.ok (Action.setCursorPosition
        { x := getProp e "clientX", y := getProp e "clientY" }) ∧
    (step s (Event.mousemove e)).cursorPosition =
      { x := getProp e "clientX", y := getProp e "clientY" } ∧
    (e.lookup "clientX" = none → (step s (Event.mousemove e)).cursorPosition.x
      = JsVal.undefined) ∧
    (e.lookup "clientY" = none → (step s (Event.mousemove e)).cursorPosition.y
      = JsVal.undefined) ∧
    ((step s (Event.mousemove e)).cursorPosition = s.cursorPosition ↔
      getProp e "clientX" = s.cursorPosition.x ∧
      getProp e "clientY" = s.cursorPosition.y) := by
  refine ⟨rfl, rfl, ?_, ?_, ?_⟩
  · intro h
    show getProp e "clientX" = JsVal.undefined
    simp [getProp, h]
  · intro h
    show getProp e "clientY" = JsVal.undefined
    simp [getProp, h]
  · rw [step_mousemove]
    cases hc : s.cursorPosition with
    | mk x y => simp [positionOf]

theorem pointer_payload_stored_as_read_witness :
    (step initialState (Event.mousemove [("clientX", JsVal.str "left")])).cursorPosition.y
      = JsVal.undefined :=
  (pointer_payload_stored_as_read initialState
    [("clientX", JsVal.str "left")]).2.2.2.1 (by decide)

/-! ## Mutual exclusion and the first Ready state -/

/-- C6: for every state, whatever `activeSection` holds and loading or not,
the render mounts at most one section view: any two mounted views are the
same view, the four mount conditions hold for at most one of the four views,
and while loading no section view is mounted. -/
theorem at_most_one_section_mounted (s : State) :
    (mountedSections (Portfolio s)).length ≤ 1 ∧
    (∀ v w, v ∈ mountedSections (Portfolio s) → w ∈ mountedSections (Portfolio s) →
      v = w) ∧
    (mountIf (decide (s.activeSection = "hero")) SectionView.HeroSection ++
      mountIf (decide (s.activeSection = "about")) SectionView.AboutSection ++
      mountIf (decide (s.activeSection = "projects")) SectionView.ProjectsSection ++
      mountIf (decide (s.activeSection = "contact")) SectionView.ContactSection).length
        ≤ 1 ∧
    (s.isLoading = true → mountedSections (Portfolio s) = []) := by
  have hlen := mounted_length_le_one s
  refine ⟨hlen, ?_, ?_, ?_⟩
  · intro v w hv hw
    match hm : mountedSections (Portfolio s), hlen, hv, hw with
    | [], _, hv, _ => simp at hv
    | [a], _, hv, hw =>
      simp at hv hw
      rw [hv, hw]
    | _ :: _ :: _, hl, _, _ =>
      rw [hm] at hlen
      simp at hlen
  · have h := mounted_length_le_one { s with isLoading := false }
    rw [mounted_ready _ rfl] at h
    exact h
  · intro h
    simp [Portfolio, h, mountedSections]

theorem at_most_one_section_mounted_witness :
    mountedSections (Portfolio initialState) = [] ∧
    (SectionView.AboutSection ∈ mountedSections (Portfolio
        { activeSection := "about", cursorPosition := initialState.cursorPosition,
          isLoading := false }) →
      SectionView.AboutSection = SectionView.AboutSection) :=
  ⟨(at_most_one_section_mounted initialState).2.2.2 (by decide),
   fun h => (at_most_one_section_mounted
      { activeSection := "about", cursorPosition := initialState.cursorPosition,
        isLoading := false }).2.1 _ _ h h⟩

/-- C7: for every event sequence from mount whose first timer event comes
after the events `pre`, every state before the timer fires is loading, has no
navigation button in its render and has `activeSection = "hero"`; the state
right after the timer fires is Ready, has `activeSection = "hero"` and mounts
`HeroSection` and nothing else.  In any loading state no event changes
`activeSection`. -/
theorem first_ready_state_is_hero (pre : List Event) (hpre : Event.timerFired ∉ pre)
    (s : State) (e : Event) :
    (∀ k, (run initialState (pre.take k)).isLoading = true ∧
      (run initialState (pre.take k)).activeSection = "hero" ∧
      navButtons (Portfolio (run initialState (pre.take k))) = []) ∧
    (run initialState (pre ++ [Event.timerFired])).isLoading = false ∧
    (run initialState (pre ++ [Event.timerFired])).activeSection = "hero" ∧
    mountedSections (Portfolio (run initialState (pre ++ [Event.timerFired])))
      = [SectionView.HeroSection] ∧
    (s.isLoading = true →
      navButtons (Portfolio s) = [] ∧ (step s e).activeSection = s.activeSection) := by
  refine ⟨?_, ?_, ?_, ?_, ?_⟩
  · intro k
    have hk : Event.timerFired ∉ pre.take k := fun hm => hpre (List.mem_of_mem_take hm)
    obtain ⟨h1, h2⟩ := run_before_timer _ hk
    exact ⟨h1, h2, navButtons_loading _ h1⟩
  · rw [run_concat, step_timerFired]
  · rw [run_concat, step_timerFired]
    exact (run_before_timer pre hpre).2
  · have hl : (run initialState (pre ++ [Event.timerFired])).isLoading = false := by
      rw [run_concat, step_timerFired]
    have ha : (run initialState (pre ++ [Event.timerFired])).activeSection = "hero" := by
      rw [run_concat, step_timerFired]
      exact (run_before_timer pre hpre).2
    rw [mounted_ready _ hl, ha]
    rfl
  · intro h
    exact ⟨navButtons_loading s h, step_activeSection_loading s e h⟩

theorem first_ready_state_is_hero_witness :
    mountedSections (Portfolio (run initialState
      ([Event.click "about", Event.mousemove [("clientX", JsVal.num 3)],
        Event.click "contact"] ++ [Event.timerFired])))
      = [SectionView.HeroSection] ∧
    (step initialState (Event.click "projects")).activeSection
      = initialState.activeSection :=
  ⟨(first_ready_state_is_hero
      [Event.click "about", Event.mousemove [("clientX", JsVal.num 3)],
        Event.click "contact"]
      (by decide) initialState (Event.click "projects")).2.2.2.1,
   ((first_ready_state_is_hero
      [Event.click "about", Event.mousemove [("clientX", JsVal.num 3)],
        Event.click "contact"]
      (by decide) initialState (Event.click "projects")).2.2.2.2 (by decide)).2⟩

/-! ## Literal data -/

/-- C8: `ProjectsSection` renders exactly 4 project cards, one per entry of
`projects` in list order, with keys 1, 2, 3, 4, pairwise distinct; the tag
spans of every card are exactly the tags of its entry; the card of project 1
has the tags "Next.js", "Three.js", "Framer Motion". -/
theorem projects_section_cards :
    ProjectsSection.length = 4 ∧
    ProjectsSection.map (fun c => c.key) = projects.map (fun q => q.id) ∧
    ProjectsSection.map (fun c => c.key) = [1, 2, 3, 4] ∧
    (ProjectsSection.map (fun c => c.key)).Nodup ∧
    ProjectsSection.map (fun c => c.tagSpans.map (fun t => t.text))
      = projects.map (fun q => q.tags) ∧
    ProjectsSection.map (fun c => c.tagSpans.map (fun t => t.text))
      = [["Next.js", "Three.js", "Framer Motion"], ["React", "AI", "Node.js"],
         ["D3.js", "WebSockets", "SVG"], ["WebXR", "Three.js", "AR"]] ∧
    (ProjectsSection.filter (fun c => c.key == 1)).map
        (fun c => c.tagSpans.map (fun t => t.text))
      = [["Next.js", "Three.js", "Framer Motion"]] := by
  refine ⟨rfl, rfl, rfl, by decide, rfl, rfl, rfl⟩

/-- C9: `AboutSection` renders exactly 6 skill items, one per entry of
`skills` in list order; every level is an integer between 0 and 100; each
item shows the text of its level followed by "%" and its bar has that same
text as target width; the item named "React" shows "95%". -/
theorem about_section_skill_items :
    AboutSection.length = 6 ∧
    AboutSection.map (fun i => i.nameText) = skills.map (fun k => k.name) ∧
    (∀ k ∈ skills, 0 ≤ k.level ∧ k.level ≤ 100) ∧
    AboutSection.map (fun i => (i.levelText, i.progressWidth))
      = skills.map (fun k => (toString k.level ++ "%", toString k.level ++ "%")) ∧
    AboutSection.map (fun i => (i.nameText, i.levelText, i.progressWidth))
      = [("Next.js", "90%", "90%"), ("React", "95%", "95%"),
         ("Animation", "85%", "85%"), ("UI/UX Design", "80%", "80%"),
         ("Three.js", "75%", "75%"), ("Node.js", "85%", "85%")] ∧
    (AboutSection.filter (fun i => i.nameText == "React")).map (fun i => i.levelText)
      = ["95%"] := by
  refine ⟨rfl, rfl, by decide, rfl, by decide, by decide⟩

theorem about_section_skill_items_witness :
    (0 : Int) ≤ 95 ∧ (95 : Int) ≤ 100 :=
  about_section_skill_items.2.2.1 { name := "React", level := 95 } (by decide)

/-! ## Frame conditions -/

/-- C10: a navigation click leaves `cursorPosition` and `isLoading`
unchanged, a pointer move leaves `activeSection` and `isLoading` unchanged,
and the timer firing leaves `activeSection` and `cursorPosition` unchanged. -/
theorem events_write_only_their_cell (s : State) (key : String) (e : JsObject) :
    ((step s (Event.click key)).cursorPosition = s.cursorPosition ∧
      (step s (Event.click key)).isLoading = s.isLoading) ∧
    ((step s (Event.mousemove e)).activeSection = s.activeSection ∧
      (step s (Event.mousemove e)).isLoading = s.isLoading) ∧
    ((step s Event.timerFired).activeSection = s.activeSection ∧
      (step s Event.timerFired).cursorPosition = s.cursorPosition) := by
  refine ⟨?_, ⟨rfl, rfl⟩, ⟨rfl, rfl⟩⟩
  rcases step_click_cases s key with h | ⟨_, _, h⟩ <;> rw [h] <;> exact ⟨rfl, rfl⟩

end PortfolioPage
